import Mathlib

/-
Verification of the HyperBus memory model (cocotbext_hyperbus).

The definitions below are a shallow embedding of
`cocotbext_hyperbus/hyperbus_memory.py`.  Bytes are modelled as natural
numbers and the Python `bytearray` backing the memory as a `List Nat`;
bit manipulation on the 48-bit CA packet and the 16-bit configuration
register value uses `Nat` with the same shifts and masks as the source.
-/

namespace HyperBus

/-- Backing store of `MemoryRegion`: `self.memory = bytearray(size)`. -/
structure MemoryRegion where
  memory : List Nat
deriving DecidableEq, Repr

/-- Constructor `MemoryRegion.__init__(size)`: a bytearray of `size` zero bytes. -/
def MemoryRegion.init (size : Nat) : MemoryRegion :=
  ⟨List.replicate size 0⟩

/-- Method `MemoryRegion.read(address, length)`:
`bytes(self.memory[address:address+length])`.  A Python slice clamps both
endpoints to the list length, which is exactly `(memory.drop address).take length`. -/
def MemoryRegion.read (m : MemoryRegion) (address length : Nat) : List Nat :=
  (m.memory.drop address).take length

/-- Method `MemoryRegion.write(address, data, length)`:
`self.memory[address:address+length] = data`.  Python slice assignment splices
`data` in place of the clamped slice `[address:address+length]`; when
`data` is shorter or longer than the slice the bytearray shrinks or grows. -/
def MemoryRegion.write (m : MemoryRegion) (address : Nat) (data : List Nat)
    (length : Nat) : MemoryRegion :=
  ⟨m.memory.take address ++ data ++ m.memory.drop (address + length)⟩

/-- Fields of `ConfigurationRegister`.  The Python constructor stores
`True`/`False` in `fixed_latency`/`hybrid_wrap` while `set_register` stores
the ints `0`/`1`; both are modelled as `Nat` (Python treats them
interchangeably as truth values). -/
structure ConfigurationRegister where
  deep_power_down : Nat
  output_drive_strength : Nat
  initial_latency : Nat
  fixed_latency : Nat
  burst_length : Nat
  hybrid_wrap : Nat
deriving DecidableEq, Repr

/-- Constructor defaults of `ConfigurationRegister.__init__`:
`deep_power_down=0, output_drive_strength=0, initial_latency=4,
fixed_latency=True, burst_length=32, hybrid_wrap=False`. -/
def ConfigurationRegister.init : ConfigurationRegister :=
  ⟨0, 0, 4, 1, 32, 0⟩

/-- Method `ConfigurationRegister.set_register(register_value)`: every field is
reassigned from a shift-and-mask of the raw value; the previous register
contents are not consulted. -/
def ConfigurationRegister.set_register (_old : ConfigurationRegister)
    (register_value : Nat) : ConfigurationRegister :=
  ⟨(register_value >>> 15) &&& 0x1,
   (register_value >>> 12) &&& 0x7,
   (register_value >>> 4) &&& 0xF,
   (register_value >>> 3) &&& 0x1,
   (register_value >>> 1) &&& 0x3,
   register_value &&& 0x1⟩

/-- Method `HyperBusMemory.decode_address(dq_value)`: returns the tuple
`(address, r_w, as_, burst_type)` with
`r_w = (dq_value >> 47) & 1`, `as_ = (dq_value >> 46) & 1`,
`burst_type = (dq_value >> 45) & 1`,
`row_column = (dq_value >> 16) & 0xFFFF`, `lower_column = dq_value & 0xFF`,
`address = (row_column << 8) | lower_column`. -/
def decode_address (dq_value : Nat) : Nat × Nat × Nat × Nat :=
  ((((dq_value >>> 16) &&& 0xFFFF) <<< 8) ||| (dq_value &&& 0xFF),
   (dq_value >>> 47) &&& 0x1,
   (dq_value >>> 46) &&& 0x1,
   (dq_value >>> 45) &&& 0x1)

/-- Burst kinds, mirroring the string tags `'wrapped'`, `'linear'`,
`'hybrid'` used by `HyperBusMemory.handle_burst`. -/
inductive BurstType where
  | wrapped
  | linear
  | hybrid
deriving DecidableEq, Repr

/-- Truthiness test `if rw:` applied to the decoded read/write bit in
`HyperBusMemory.handle_transactions` (a nonzero int is a read). -/
def is_read_bit (rw : Nat) : Bool :=
  rw != 0

/-- Branch selection on the decoded burst-type bit in
`HyperBusMemory.handle_transactions`: `if burst_type == 0:` runs the
wrapped burst, `elif burst_type == 1:` the linear burst; any other value
selects no branch. -/
def burst_branch (burst_type : Nat) : Option BurstType :=
  if burst_type = 0 then some BurstType.wrapped
  else if burst_type = 1 then some BurstType.linear
  else none

/-- Memory addresses read by the wrapped branch of
`HyperBusMemory.handle_burst`: for `i in range(length)` the code reads one
byte at `effective_address = (address + i) % group_size`. -/
def wrapped_addrs (group_size address length : Nat) : List Nat :=
  (List.range length).map (fun i => (address + i) % group_size)

/-- Memory addresses covered by the linear branch of
`HyperBusMemory.handle_burst`: the single call `memory.read(address, length)`
reads the bytes at `address, address+1, …, address+length-1`. -/
def linear_addrs (address length : Nat) : List Nat :=
  (List.range length).map (fun i => address + i)

/-- Address sequence of `HyperBusMemory.handle_burst(address, length, burst_type)`
with `group_size = self.burst_length`.  The hybrid branch computes
`wrapped_length = group_size - (address % group_size)`, caps it at `length`,
produces the wrapped run first and then, if words remain, a linear run from
`linear_address = address + wrapped_length`. -/
def handle_burst_addrs (group_size address length : Nat) :
    BurstType → List Nat
  | BurstType.wrapped => wrapped_addrs group_size address length
  | BurstType.linear => linear_addrs address length
  | BurstType.hybrid =>
      let wrapped_length0 := group_size - address % group_size
      let wrapped_length := if wrapped_length0 > length then length else wrapped_length0
      wrapped_addrs group_size address wrapped_length ++
        (if length > wrapped_length then
          linear_addrs (address + wrapped_length) (length - wrapped_length)
        else [])

/-- Outcome of running a Python loop that may raise: either the loop
completes, or an exception is raised part-way; in both cases the memory
state at that point is recorded. -/
inductive PyResult where
  | done (m : MemoryRegion)
  | typeError (m : MemoryRegion)
deriving DecidableEq, Repr

/-- Method `HyperBusMemory.write_with_masking(address, data, mask)`: for
`i in range(len(data))`, when `mask[i] == 0` the code calls
`self.memory.write(address + i, data[i], 1)` passing the bare int `data[i]`;
`MemoryRegion.write` then executes the slice assignment
`self.memory[address:address+1] = data` with a non-iterable right-hand side,
which raises `TypeError` and aborts the loop before any byte is stored.
When the mask bit is nonzero the byte is skipped and the loop continues.
The data and mask sequences are walked in step; the call contract
(spec section 4.4) has equal lengths. -/
def write_with_masking (m : MemoryRegion) (address : Nat) :
    List Nat → List Nat → PyResult
  | _ :: ds, k :: ks =>
      if k = 0 then PyResult.typeError m
      else write_with_masking m (address + 1) ds ks
  | _, _ => PyResult.done m

/-- State of a `HyperBusMemory` instance relevant to the latency computation:
the constructor parameters `initial_latency` (default 4), `fixed_latency`
(default True), `burst_length` (default 32) and the owned
`ConfigurationRegister`. -/
structure HyperBusMemoryState where
  initial_latency : Nat
  fixed_latency : Bool
  burst_length : Nat
  config_register : ConfigurationRegister
deriving DecidableEq, Repr

/-- Constructor defaults of `HyperBusMemory.__init__`. -/
def HyperBusMemoryState.init : HyperBusMemoryState :=
  ⟨4, true, 32, ConfigurationRegister.init⟩

/-- Latency computation in `HyperBusMemory.handle_transactions`:
`additional_latency = 0`, and `if self.bus.rwds.value == 1:
additional_latency = self.initial_latency`.  The value is taken from the
instance member `self.initial_latency` (a constructor parameter); the
`ConfigurationRegister` owned by the instance is not consulted, and the
computed value is not used afterwards (no wait is inserted). -/
def additional_latency (s : HyperBusMemoryState) (rwds : Nat) : Nat :=
  if rwds = 1 then s.initial_latency else 0

/-- Big-endian byte assembly `int.from_bytes(ca_bytes, byteorder="big")`. -/
def from_bytes_big (bs : List Nat) : Nat :=
  bs.foldl (fun acc b => acc * 256 + b) 0

/-- One scheduler event visible to the `handle_transactions` coroutine: a
falling or rising edge of the chip-select line, or a clock edge at which the
coroutine samples the current chip-select level and the dq byte and rwds
level.  The loop body treats the rising and falling clock edges of each of
its three iterations identically (sample chip-select, abort or append one CA
byte), so clock edges are modelled uniformly. -/
inductive Event where
  | csFall
  | csRise
  | ckEdge (cs dq rwds : Nat)
deriving DecidableEq, Repr

/-- Suspension points of the `handle_transactions` loop:
`waitFall` is `await FallingEdge(self.bus.o_csn0)` at the top of the loop;
`capturing ca` is inside the 3-iteration capture loop with `self.ca_bytes = ca`;
`waitWriteData a` is the write path's `await RisingEdge(self.bus.ck)` before
sampling data and mask for decoded address `a`;
`waitRise` is `await RisingEdge(self.bus.o_csn0)` at the bottom of the loop;
`crashed` marks a raised `TypeError` that terminates the coroutine. -/
inductive HState where
  | waitFall
  | capturing (ca_bytes : List Nat)
  | waitWriteData (address : Nat)
  | waitRise
  | crashed
deriving DecidableEq, Repr

/-- Device state threaded through the transaction loop: the coroutine's
suspension point and the `MemoryRegion`. -/
structure DevState where
  hstate : HState
  mem : MemoryRegion
deriving DecidableEq, Repr

/-- The CA buffer `self.ca_bytes` as visible at each suspension point (it is
reset to `[]` on every abort and before leaving the capture loop). -/
def HState.ca_buffer : HState → List Nat
  | HState.capturing ca => ca
  | _ => []

/-- One step of `HyperBusMemory.handle_transactions` on one event.

While waiting for a chip-select edge, clock edges are ignored; while inside
the capture loop the coroutine only wakes on clock edges, where it first
tests `self.bus.o_csn0.value == 1` (abort: reset `ca_bytes`, fall through the
`len == 6` test, and suspend at `await RisingEdge(self.bus.o_csn0)`) and
otherwise appends the sampled byte.  When the 6th byte is appended the code
decodes the CA value.  On a read with burst bit 0 the wrapped branch of
`handle_burst` raises `TypeError` (`bytearray.append` is given a `bytes`
object), on a read with burst bit 1 the linear data is driven and the
coroutine suspends waiting for chip-select to rise; on a write the coroutine
waits one more clock edge and then `write_with_masking(address, data, mask)`
raises `TypeError` (`len()` of the sampled `int`).  A raised exception ends
the coroutine, leaving memory untouched (the exception occurs before any
byte is stored).  No latency wait is modelled because the code inserts
none (the computed `additional_latency` is unused). -/
def step (s : DevState) (e : Event) : DevState :=
  match s.hstate, e with
  | HState.waitFall, Event.csFall => ⟨HState.capturing [], s.mem⟩
  | HState.waitFall, _ => s
  | HState.capturing ca, Event.ckEdge cs dq _ =>
      if cs = 1 then ⟨HState.waitRise, s.mem⟩
      else
        let ca' := ca ++ [dq]
        if ca'.length = 6 then
          let dec := decode_address (from_bytes_big ca')
          if is_read_bit dec.2.1 then
            if dec.2.2.2 = 0 then ⟨HState.crashed, s.mem⟩
            else ⟨HState.waitRise, s.mem⟩
          else ⟨HState.waitWriteData dec.1, s.mem⟩
        else ⟨HState.capturing ca', s.mem⟩
  | HState.capturing _, _ => s
  | HState.waitWriteData _, Event.ckEdge _ _ _ => ⟨HState.crashed, s.mem⟩
  | HState.waitWriteData _, _ => s
  | HState.waitRise, Event.csRise => ⟨HState.waitFall, s.mem⟩
  | HState.waitRise, _ => s
  | HState.crashed, _ => s

/-- Run of the transaction loop over a sequence of events. -/
def run (s : DevState) (es : List Event) : DevState :=
  es.foldl step s

/-- Modelled from the spec (section 4.5 contract for MemoryArray, whose
range-checked variant is not in the source): `read(address, length)` returns
the exact in-range slice and fails with OutOfRange when `address + length`
exceeds capacity. -/
def spec_read_contract (m : MemoryRegion) (address length : Nat) :
    Option (List Nat) :=
  if address + length ≤ m.memory.length then
    some ((m.memory.drop address).take length)
  else none

/-- Helper: a right shift followed by a mask of `n` low bits extracts the
bit field `k + n - 1 : k` as `v / 2 ^ k % 2 ^ n`. -/
theorem shift_and_mask (v k n : Nat) :
    (v >>> k) &&& (2 ^ n - 1) = v / 2 ^ k % 2 ^ n := by
  rw [Nat.shiftRight_eq_div_pow, Nat.and_pow_two_sub_one_eq_mod]

/-- C1 (code bug): the wrapped branch of `handle_burst` computes
`effective_address = (address + i) % group_size`, which confines every
produced address to `[0, group_size)` instead of the aligned window
containing the start address.  For start address 40 and window size 32,
whose aligned window is `[32 * (40 / 32), 32 * (40 / 32) + 32) = [32, 64)`,
the two produced addresses are 8 and 9 — both outside the window, wrapped
toward 0 rather than to the window start. -/
theorem C1_wrapped_burst_escapes_window :
    handle_burst_addrs 32 40 2 BurstType.wrapped = [8, 9] ∧
    32 * (40 / 32) = 32 ∧ ¬ (32 ≤ 8) ∧ ¬ (32 ≤ 9) := by decide

/-- C2 (code bug): the hybrid branch does produce the claimed sequence
`30, 31, 32, …, 39` for `a = 30, w = 32, L = 10` (where the naive masking is
invisible because `a < w`), but its wrapped-style run does not start at the
start address in general: for `a = 40, w = 32, L = 4` the run is
`8, 9, 10, 11`, not `40, 41, 42, 43`. -/
theorem C2_hybrid_burst_evaluated :
    handle_burst_addrs 32 30 10 BurstType.hybrid
      = [30, 31, 32, 33, 34, 35, 36, 37, 38, 39] ∧
    handle_burst_addrs 32 40 4 BurstType.hybrid = [8, 9, 10, 11] ∧
    (handle_burst_addrs 32 40 4 BurstType.hybrid).head? ≠ some 40 := by decide

/-- C3 counterexample: the packet encoding `read=1, address_space=0,
burst_type=0, address=0x00001000` is the 48-bit value `0x800000100000`; it
decodes to address `0x1000` with burst-type bit 0, and
`handle_transactions` runs the wrapped burst branch for bit 0 — not the
linear branch the claim reports. -/
theorem C3_burst_bit_zero_is_wrapped :
    decode_address 0x800000100000 = (0x1000, 1, 0, 0) ∧
    burst_branch 0 = some BurstType.wrapped ∧
    burst_branch 0 ≠ some BurstType.linear := by decide

/-- C3 (amended): CA decoding is a pure total function on any 48-bit value
with bit 47 the read/write bit, bit 46 the address-space bit and bit 45 the
burst-type bit; the packet `read=1, address_space=0, burst_type=0,
address=0x00001000` decodes to a read (truthy bit 1), address-space bit 0,
burst-type bit 0 — interpreted by `handle_transactions` as a wrapped
burst — and address `0x1000`. -/
theorem C3_decode_reports :
    (∀ dq : Nat,
        (decode_address dq).2.1 = dq / 2 ^ 47 % 2 ∧
        (decode_address dq).2.2.1 = dq / 2 ^ 46 % 2 ∧
        (decode_address dq).2.2.2 = dq / 2 ^ 45 % 2) ∧
    decode_address 0x800000100000 = (0x1000, 1, 0, 0) ∧
    is_read_bit 1 = true ∧
    burst_branch 0 = some BurstType.wrapped := by
  refine ⟨fun dq => ⟨?_, ?_, ?_⟩, by decide, rfl, rfl⟩ <;>
    · show (dq >>> _) &&& 0x1 = _
      rw [Nat.and_one_is_mod, Nat.shiftRight_eq_div_pow]

/-- C4 (code bug): the additional-latency value computed in
`handle_transactions` is `self.initial_latency`, the constructor member —
the `ConfigurationRegister` owned by the device and its `fixed_latency`
flag never influence it.  Concretely, after writing `0x70` to the
configuration register (latency code 7) a device built with the default
constructor latency 4 still computes 4. -/
theorem C4_latency_not_from_config :
    (∀ (il bl rwds : Nat) (f₁ f₂ : Bool) (c₁ c₂ : ConfigurationRegister),
        additional_latency ⟨il, f₁, bl, c₁⟩ rwds
          = additional_latency ⟨il, f₂, bl, c₂⟩ rwds) ∧
    additional_latency
      ⟨4, true, 32, ConfigurationRegister.set_register ConfigurationRegister.init 0x70⟩ 1 = 4 ∧
    (ConfigurationRegister.set_register ConfigurationRegister.init 0x70).initial_latency = 7 := by
  refine ⟨fun il bl rwds f₁ f₂ c₁ c₂ => rfl, by decide, by decide⟩

/-- C5 counterexample: on a 4-byte memory, `read(2, 4)` has
`address + length = 6 > 4` yet returns the truncated two-byte slice instead
of failing (the spec contract demands an OutOfRange failure, `none` here),
and `write(2, [1,2,3,4], 4)` grows the bytearray to 6 bytes instead of
failing. -/
theorem C5_no_range_check :
    MemoryRegion.read (MemoryRegion.init 4) 2 4 = [0, 0] ∧
    spec_read_contract (MemoryRegion.init 4) 2 4 = none ∧
    (MemoryRegion.write (MemoryRegion.init 4) 2 [1, 2, 3, 4] 4).memory
      = [0, 0, 1, 2, 3, 4] := by decide

/-- C5 (amended): `MemoryRegion.read` never fails — it returns the slice
clamped at capacity, of length `min length (capacity - address)` — and
`MemoryRegion.write` performs no range check: slice assignment splices the
data in place of the clamped slice, making the new length
`min address capacity + len(data) + (capacity - (address + length))`. -/
theorem C5_truncating_slices (m : MemoryRegion) (address length : Nat)
    (data : List Nat) :
    (m.read address length).length = min length (m.memory.length - address) ∧
    (m.write address data length).memory.length
      = min address m.memory.length + data.length
        + (m.memory.length - (address + length)) := by
  constructor
  · simp [MemoryRegion.read]
  · simp [MemoryRegion.write]
    omega

/-- C9: `ConfigurationRegister.set_register` decodes the raw value per the
fixed layout — bit 15 deep_power_down, bits 14:12 output_drive_strength,
bits 7:4 initial_latency, bit 3 fixed_latency, bits 2:1 burst_length, bit 0
hybrid_wrap — and the resulting register is a function of the raw value
alone: two applications to different prior states agree on every field. -/
theorem C9_set_register_layout (old₁ old₂ : ConfigurationRegister) (v : Nat) :
    ConfigurationRegister.set_register old₁ v
      = ConfigurationRegister.set_register old₂ v ∧
    (ConfigurationRegister.set_register old₁ v).deep_power_down
      = v / 2 ^ 15 % 2 ∧
    (ConfigurationRegister.set_register old₁ v).output_drive_strength
      = v / 2 ^ 12 % 2 ^ 3 ∧
    (ConfigurationRegister.set_register old₁ v).initial_latency
      = v / 2 ^ 4 % 2 ^ 4 ∧
    (ConfigurationRegister.set_register old₁ v).fixed_latency
      = v / 2 ^ 3 % 2 ∧
    (ConfigurationRegister.set_register old₁ v).burst_length
      = v / 2 % 2 ^ 2 ∧
    (ConfigurationRegister.set_register old₁ v).hybrid_wrap = v % 2 := by
  have h1 : (0x1 : Nat) = 2 ^ 1 - 1 := by norm_num
  have h3 : (0x3 : Nat) = 2 ^ 2 - 1 := by norm_num
  have h7 : (0x7 : Nat) = 2 ^ 3 - 1 := by norm_num
  have hF : (0xF : Nat) = 2 ^ 4 - 1 := by norm_num
  refine ⟨rfl, ?_, ?_, ?_, ?_, ?_, ?_⟩
  · show (v >>> 15) &&& 0x1 = _
    rw [Nat.and_one_is_mod, Nat.shiftRight_eq_div_pow]
  · show (v >>> 12) &&& 0x7 = _
    rw [h7, shift_and_mask]
  · show (v >>> 4) &&& 0xF = _
    rw [hF, shift_and_mask]
  · show (v >>> 3) &&& 0x1 = _
    rw [Nat.and_one_is_mod, Nat.shiftRight_eq_div_pow]
  · show (v >>> 1) &&& 0x3 = _
    rw [h3, shift_and_mask]
    norm_num
  · show v &&& 0x1 = _
    rw [Nat.and_one_is_mod]

/-- C6 (amended): chip-select deasserting after 3 of 6 CA bytes aborts the
transaction silently — the partial CA packet is discarded and the memory is
unchanged — but the handler then suspends at
`await RisingEdge(self.bus.o_csn0)` (chip-select is already high), so the
next chip-select assertion is ignored instead of starting a new CA
capture. -/
theorem C6_abort_is_silent_but_not_ready (m : MemoryRegion) (b₁ b₂ b₃ : Nat) :
    run ⟨HState.waitFall, m⟩
        [Event.csFall, Event.ckEdge 0 b₁ 0, Event.ckEdge 0 b₂ 0,
         Event.ckEdge 0 b₃ 0, Event.csRise, Event.ckEdge 1 0 0]
      = ⟨HState.waitRise, m⟩ ∧
    HState.waitRise.ca_buffer = [] ∧
    step ⟨HState.waitRise, m⟩ Event.csFall = ⟨HState.waitRise, m⟩ := by
  exact ⟨rfl, rfl, rfl⟩

/-- C6 counterexample: a concrete run in which chip-select deasserts after 3
of 6 CA bytes and then asserts again.  The device ends suspended waiting for
a chip-select rising edge, not capturing — so it does not accept a new CA
capture immediately after the abort, contrary to the claim. -/
theorem C6_next_capture_missed :
    run ⟨HState.waitFall, MemoryRegion.init 8⟩
        [Event.csFall, Event.ckEdge 0 0xA0 0, Event.ckEdge 0 0 0,
         Event.ckEdge 0 0x12 0, Event.csRise, Event.ckEdge 1 0 0,
         Event.csFall]
      = ⟨HState.waitRise, MemoryRegion.init 8⟩ ∧
    (run ⟨HState.waitFall, MemoryRegion.init 8⟩
        [Event.csFall, Event.ckEdge 0 0xA0 0, Event.ckEdge 0 0 0,
         Event.ckEdge 0 0x12 0, Event.csRise, Event.ckEdge 1 0 0,
         Event.csFall]).hstate
      ≠ HState.capturing [] := by decide

/-- C8: write/read round-trip.  Writing `data` at `address` with any slice
length argument `L` — covering both `MemoryRegion.write(a, d, len(d))` and
the call in `HyperBusMemory.write`, which always passes
`self.data_width // 8` — and then reading `len(data)` bytes back at
`address` returns exactly `data`, whenever `address + len(data)` is within
capacity. -/
theorem C8_write_read_round_trip (m : MemoryRegion) (address L : Nat)
    (data : List Nat) (h : address + data.length ≤ m.memory.length) :
    (m.write address data L).read address data.length = data := by
  show ((m.memory.take address ++ data ++ m.memory.drop (address + L)).drop
      address).take data.length = data
  have ht : (m.memory.take address).length = address := by
    simp
    omega
  have hd := List.drop_left (m.memory.take address)
    (data ++ m.memory.drop (address + L))
  rw [ht] at hd
  rw [List.append_assoc, hd, List.take_left]

/-- Witness for C8 at a concrete input: capacity 4, address 1, two data
bytes. -/
theorem C8_witness :
    1 + 2 ≤ 4 ∧ ((MemoryRegion.init 4).write 1 [5, 6] 2).read 1 2 = [5, 6] :=
  ⟨by decide, C8_write_read_round_trip (MemoryRegion.init 4) 1 2 [5, 6] (by decide)⟩

/-- C10: for every CA value the decoded address equals
`(bits 31:16) * 2^8 + (bits 7:0)`, hence is below `2^24`; and any two CA
values agreeing on bits 31:16 and on bits 7:0 — in particular values
differing only in bits 44:32 or only in bits 15:8 — decode to the same
address. -/
theorem C10_address_formula (dq dq' : Nat)
    (h16 : dq / 2 ^ 16 % 2 ^ 16 = dq' / 2 ^ 16 % 2 ^ 16)
    (h8 : dq % 2 ^ 8 = dq' % 2 ^ 8) :
    (decode_address dq).1 = dq / 2 ^ 16 % 2 ^ 16 * 2 ^ 8 + dq % 2 ^ 8 ∧
    (decode_address dq).1 < 2 ^ 24 ∧
    (decode_address dq).1 = (decode_address dq').1 := by
  have key : ∀ x : Nat,
      (decode_address x).1 = x / 2 ^ 16 % 2 ^ 16 * 2 ^ 8 + x % 2 ^ 8 := by
    intro x
    show (((x >>> 16) &&& 0xFFFF) <<< 8) ||| (x &&& 0xFF) = _
    have hm16 : (0xFFFF : Nat) = 2 ^ 16 - 1 := by norm_num
    have hm8 : (0xFF : Nat) = 2 ^ 8 - 1 := by norm_num
    rw [hm16, hm8, shift_and_mask, Nat.and_pow_two_sub_one_eq_mod,
      Nat.shiftLeft_eq, Nat.mul_comm (x / 2 ^ 16 % 2 ^ 16) (2 ^ 8),
      ← Nat.mul_add_lt_is_or (Nat.mod_lt _ (by norm_num)) _,
      Nat.mul_comm (2 ^ 8) (x / 2 ^ 16 % 2 ^ 16)]
  refine ⟨key dq, ?_, ?_⟩
  · rw [key dq]
    have h1 : dq / 2 ^ 16 % 2 ^ 16 < 2 ^ 16 := Nat.mod_lt _ (by norm_num)
    have h2 : dq % 2 ^ 8 < 2 ^ 8 := Nat.mod_lt _ (by norm_num)
    have e16 : (2 : Nat) ^ 16 = 65536 := by norm_num
    have e8 : (2 : Nat) ^ 8 = 256 := by norm_num
    have e24 : (2 : Nat) ^ 24 = 16777216 := by norm_num
    rw [e8, e24]
    rw [e16] at h1
    rw [e8] at h2
    omega
  · rw [key dq, key dq', h16, h8]

/-- Witness for C10 at concrete inputs differing only in bit 32 (a bit in
the ignored 44:32 field). -/
theorem C10_witness :
    (decode_address 0x800000100000).1 = (decode_address 0x800100100000).1 ∧
    (decode_address 0x800000100000).1 < 2 ^ 24 :=
  ⟨(C10_address_formula 0x800000100000 0x800100100000 (by decide) (by decide)).2.2,
   (C10_address_formula 0x800000100000 0x800100100000 (by decide) (by decide)).2.1⟩

/-- C7 (code bug): `write_with_masking` cannot perform the masked commit.
On the claim's input the first byte has mask bit 0, so the code calls
`self.memory.write(0, 0x11, 1)`; the bytearray slice assignment of the bare
int `0x11` raises `TypeError` and the run aborts with memory still
`[0xAA, 0xBB, 0xCC]` — the claimed result `[0x11, 0xBB, 0x33]` is never
produced.  In general the loop either completes (every mask bit nonzero) or
raises at the first zero mask bit, and in both cases the memory is left
exactly as it was: no byte is ever written through this method. -/
theorem C7_masked_write_raises :
    (write_with_masking ⟨[0xAA, 0xBB, 0xCC]⟩ 0 [0x11, 0x22, 0x33] [0, 1, 0]
        = PyResult.typeError ⟨[0xAA, 0xBB, 0xCC]⟩ ∧
      write_with_masking ⟨[0xAA, 0xBB, 0xCC]⟩ 0 [0x11, 0x22, 0x33] [0, 1, 0]
        ≠ PyResult.done ⟨[0x11, 0xBB, 0x33]⟩) ∧
    ∀ (m : MemoryRegion) (address : Nat) (data mask : List Nat),
      write_with_masking m address data mask = PyResult.done m ∨
      write_with_masking m address data mask = PyResult.typeError m := by
  refine ⟨by decide, ?_⟩
  intro m address data mask
  induction data generalizing address mask with
  | nil => left; rfl
  | cons d ds ih =>
    cases mask with
    | nil => left; rfl
    | cons k ks =>
      by_cases hk : k = 0
      · right
        simp [write_with_masking, hk]
      · have h := ih (address + 1) ks
        simpa [write_with_masking, hk] using h

end HyperBus
